import Mathlib

/-!
A shallow embedding of the expense-tracker storage layer (src/main.py) and
proofs about its five exposed operations: add_expense, list_expenses_by_range,
get_expenses_by_category, get_total_spending and summarize.

The sqlite table is embedded as a list of records in rowid (scan) order
together with the next AUTOINCREMENT id.  REAL amounts are embedded as
rationals.  The created_at column is a wall-clock timestamp assigned by the
engine; no operation in scope reads it back into a claim, so it is omitted.
The embedding does not model engine I/O failures, so except branches that
only catch genuine sqlite I/O errors are unreachable here; branches that the
control flow of the Python code itself reaches (the malformed dynamic query
in summarize, the TypeError in get_expenses_by_category) are modelled
explicitly.
-/

/-- A stored row of the expenses table. -/
structure ExpenseRecord where
  id : Nat
  date : String
  amount : Rat
  category : String
  subcategory : String
  remark : String
  deriving DecidableEq, Repr

/-- The persistent store: the rows of the expenses table in rowid (scan)
order, and the id the AUTOINCREMENT column assigns to the next insert. -/
structure DB where
  rows : List ExpenseRecord
  nextId : Nat
  deriving DecidableEq, Repr

/-- The date check of the pydantic model (src/main.py line 19): exactly four
digits, a dash, two digits, a dash, two digits.  Purely syntactic, no
calendar validity.  The re class of digits is embedded as ASCII digits,
which is all the dates in scope use. -/
def matchesDatePattern (s : String) : Bool :=
  match s.toList with
  | [y1, y2, y3, y4, '-', m1, m2, '-', d1, d2] =>
      y1.isDigit && y2.isDigit && y3.isDigit && y4.isDigit &&
      m1.isDigit && m2.isDigit && d1.isDigit && d2.isDigit
  | _ => false

/-- A validated expense entry, the pydantic model ExpenseEntry of
src/main.py lines 18-23 after construction has succeeded. -/
structure ExpenseEntry where
  date : String
  amount : Rat
  category : String
  subcategory : String
  remark : String
  deriving DecidableEq, Repr

/-- Embeds the pydantic validation of ExpenseEntry (src/main.py lines
18-23): date must match the pattern, amount must be strictly greater than
zero, category must have at least 4 characters; an absent subcategory or
remark defaults to the empty string.  The result none stands for a pydantic
ValidationError, some for a validated entry. -/
def ExpenseEntry.validate (date : String) (amount : Rat) (category : String)
    (subcategory : Option String) (remark : Option String) :
    Option ExpenseEntry :=
  if matchesDatePattern date && decide (0 < amount) &&
      decide (4 ≤ category.length) then
    some ⟨date, amount, category, subcategory.getD "", remark.getD ""⟩
  else
    none

/-- The success dict returned by add_expense. -/
structure AddResult where
  status : String
  id : Nat
  message : String
  deriving DecidableEq, Repr

/-- Embeds add_expense (src/main.py lines 54-69): one INSERT appending the
validated entry as a new row with the next AUTOINCREMENT id, returning the
assigned id as lastrowid.  The except branch only catches engine failures,
which the embedding does not model. -/
def add_expense (data : ExpenseEntry) (db : DB) : AddResult × DB :=
  let row : ExpenseRecord :=
    ⟨db.nextId, data.date, data.amount, data.category, data.subcategory,
      data.remark⟩
  (⟨ "success", db.nextId, "Transaction committed."⟩,
    ⟨db.rows ++ [row], db.nextId + 1⟩)

/-- The BETWEEN predicate of the range queries: start_date and end_date are
inclusive bounds on the date column under the lexicographic string order
(sqlite BINARY collation; on the ASCII dates in scope the two orders
agree). -/
def inDateRange (start_date end_date : String) (r : ExpenseRecord) : Bool :=
  decide (start_date ≤ r.date) && decide (r.date ≤ end_date)

/-- ORDER BY date DESC as a relation: a comes before b when the date of b is
at most the date of a. -/
def dateDesc (a b : ExpenseRecord) : Prop :=
  b.date ≤ a.date

instance : DecidableRel dateDesc :=
  fun a b => inferInstanceAs (Decidable (b.date ≤ a.date))

instance : IsTotal ExpenseRecord dateDesc :=
  ⟨fun a b => le_total b.date a.date⟩

instance : IsTrans ExpenseRecord dateDesc :=
  ⟨fun _ _ _ hab hbc => le_trans hbc hab⟩

/-- Embeds list_expenses_by_range (src/main.py lines 72-96): the rows whose
date lies between the two bounds inclusive, ordered by date descending.
sqlite leaves the relative order of equal dates unspecified; the embedding
fixes one order compatible with ORDER BY date DESC.  The except branch only
catches engine failures, which the embedding does not model. -/
def list_expenses_by_range (start_date end_date : String) (db : DB) :
    List ExpenseRecord :=
  List.insertionSort dateDesc (db.rows.filter (inDateRange start_date end_date))

/-- What an exposed operation hands back to its caller: a row list, the
structured error dict carrying status error and a message, or an exception
escaping the operation unhandled. -/
inductive QueryResult where
  | ok (rows : List ExpenseRecord) : QueryResult
  | errorDict (message : String) : QueryResult
  | unhandled (exc : String) : QueryResult
  deriving DecidableEq, Repr

/-- Embeds get_expenses_by_category (src/main.py lines 101-110).  This
connection never sets a row_factory, so fetchall returns plain tuples, and
the comprehension applies dict to each tuple: on the first matching row,
dict of a tuple of scalars raises TypeError, which the except clause (it
catches only sqlite3.Error) does not handle, so the exception escapes the
operation.  An empty match runs the comprehension over no rows and returns
the empty list. -/
def get_expenses_by_category (category : String) (db : DB) : QueryResult :=
  let matching := db.rows.filter (fun r => r.category == category)
  if matching.isEmpty then .ok [] else .unhandled "TypeError"

/-- SELECT SUM(amount): NULL (none) over zero rows, else the sum. -/
def sumAmount (rows : List ExpenseRecord) : Option Rat :=
  match rows with
  | [] => none
  | _ => some ((rows.map (fun r => r.amount)).sum)

/-- Embeds get_total_spending (src/main.py lines 115-126): the expression
result[0] if result[0] else 0 keeps a truthy sum and replaces both NULL and
a falsy zero sum by the number 0. -/
def get_total_spending (db : DB) : Rat :=
  match sumAmount db.rows with
  | none => 0
  | some s => if s ≠ 0 then s else 0

/-- Python truthiness of the optional category argument of summarize: None
and the empty string are falsy, every other string is truthy. -/
def categoryTruthy : Option String → Bool
  | none => false
  | some s => !s.isEmpty

/-- The parameter list summarize binds at the execute call (src/main.py
lines 141-149): it starts as the two dates; the truthy-category branch runs
params = params.append(category), and since list.append returns None the
variable params becomes None (none here). -/
def summarizeParams (startdate enddate : String) (category : Option String) :
    Option (List String) :=
  if categoryTruthy category then none else some [startdate, enddate]

/-- GROUP BY category ORDER BY category ASC over the filtered rows: one
output row per distinct category, in ascending category order.  sqlite
takes the bare selected columns of each output row from an unspecified row
of the group; the embedding takes the first row of the group in scan order,
a choice no claim in scope depends on. -/
def groupByCategory (rows : List ExpenseRecord) : List ExpenseRecord :=
  (List.insertionSort (fun a b => a ≤ b)
      ((rows.map (fun r => r.category)).dedup)).filterMap
    (fun c => rows.find? (fun r => r.category == c))

/-- Embeds summarize (src/main.py lines 131-154).  With a truthy category
the code concatenates the fragment category = ? onto the query without an
AND, producing SQL with a syntax error, and replaces params by the None
that list.append returns; cursor.execute then raises
sqlite3.OperationalError, which the except clause converts to the
structured error dict.  With a falsy category the well-formed grouped query
runs over the date range. -/
def summarize (startdate enddate : String) (category : Option String)
    (db : DB) : QueryResult :=
  if categoryTruthy category then
    .errorDict "Failed to retrieve summarized data from database."
  else
    .ok (groupByCategory (db.rows.filter (inDateRange startdate enddate)))

/-- A store holding one food row and one transport row. -/
def sampleDB : DB :=
  ⟨[⟨1, "2024-01-05", 10, "food", "", ""⟩,
    ⟨2, "2024-01-08", 7, "transport", "", ""⟩], 3⟩

/-- A store holding a single food row. -/
def oneFoodDB : DB :=
  ⟨[⟨1, "2024-01-05", 10, "food", "", ""⟩], 2⟩

/-- A store whose two rows have amounts 10.50 and 5.25. -/
def amountsDB : DB :=
  ⟨[⟨1, "2024-03-01", 10.50, "food", "", ""⟩,
    ⟨2, "2024-03-02", 5.25, "grocery", "", ""⟩], 3⟩

/-- C1: code bug witness at a failing input.  With the non-empty category
food supplied, summarize returns the structured error dict instead of the
rows of that category, and the parameter list bound at the execute call is
None rather than the three parameters start_date, end_date, category. -/
theorem C1_summarize_category_fails :
    summarize "2024-01-01" "2024-01-31" (some "food") sampleDB
        = QueryResult.errorDict
            "Failed to retrieve summarized data from database."
      ∧ summarizeParams "2024-01-01" "2024-01-31" (some "food") = none := by
  constructor <;> rfl

/-- C2: code bug witness.  With one food row and one transport row stored,
querying the category food raises an uncaught TypeError instead of
returning the food record; only an empty match yields a sequence, the empty
one. -/
theorem C2_category_query_fails :
    get_expenses_by_category "food" sampleDB = QueryResult.unhandled "TypeError"
      ∧ get_expenses_by_category "clothing" sampleDB = QueryResult.ok [] := by
  constructor <;> rfl

/-- C3: code bug witness.  The TypeError raised inside
get_expenses_by_category is not converted into the structured error object:
it escapes the operation boundary unhandled, contradicting the propagation
policy. -/
theorem C3_unhandled_fault :
    get_expenses_by_category "food" oneFoodDB
      = QueryResult.unhandled "TypeError" := by
  rfl

/-- C6 counterexample: the date 2024-13-01 matches the purely syntactic
pattern (it is four digits, dash, two digits, dash, two digits), so
validation accepts it and yields a validated entry, refuting the claim that
it is rejected as failing the date pattern. -/
theorem C6_month13_accepted :
    ExpenseEntry.validate "2024-13-01" 1 "food" none none
      = some ⟨ "2024-13-01", 1, "food", "", ""⟩ := by
  rfl

/-- C6 amended: validation rejects amount 0, rejects amount -5 and rejects
the three-character category abc, while the syntactically well-formed but
calendar-invalid date 2024-13-01 passes the pattern-only check and is
accepted. -/
theorem C6_validation_cases :
    ExpenseEntry.validate "2024-01-01" 0 "food" none none = none
      ∧ ExpenseEntry.validate "2024-01-01" (-5) "food" none none = none
      ∧ ExpenseEntry.validate "2024-01-01" 1 "abc" none none = none
      ∧ (ExpenseEntry.validate "2024-13-01" 1 "food" none none).isSome
          = true := by
  refine ⟨by rfl, by rfl, by rfl, by rfl⟩

/-- C10: the empty-string category is falsy in Python, so summarize treats
it exactly as an absent category: the two calls return the same result on
every store and every pair of bounds. -/
theorem C10_empty_category (startdate enddate : String) (db : DB) :
    summarize startdate enddate (some "") db
      = summarize startdate enddate none db := by
  rfl

/-- C10 witness at concrete inputs. -/
theorem C10_empty_category_witness :
    summarize "2024-01-01" "2024-01-31" (some "") sampleDB
      = summarize "2024-01-01" "2024-01-31" none sampleDB :=
  C10_empty_category "2024-01-01" "2024-01-31" sampleDB

/-- The falsy-zero normalisation of get_total_spending is the identity on
rationals: keeping a nonzero value and replacing zero by 0 returns the
value itself. -/
theorem iteNeZeroEq (s : Rat) : (if s ≠ 0 then s else 0) = s := by
  by_cases h : s = 0
  · simp [h]
  · simp [h]

/-- C7: total spending equals the sum of the amount column over all rows,
is exactly the number 0 on the empty table, and is 15.75 on the store whose
amounts are 10.50 and 5.25. -/
theorem C7_total_spending :
    (∀ db : DB, get_total_spending db
        = (db.rows.map (fun r => r.amount)).sum)
      ∧ get_total_spending ⟨[], 1⟩ = 0
      ∧ get_total_spending amountsDB = 15.75 := by
  refine ⟨?_, by rfl, ?_⟩
  · intro db
    unfold get_total_spending sumAmount
    cases db.rows with
    | nil => simp
    | cons a l => exact iteNeZeroEq _
  · show get_total_spending amountsDB = 15.75
    norm_num [get_total_spending, sumAmount, amountsDB]

/-- The boolean BETWEEN predicate holds exactly when both inclusive bound
comparisons hold. -/
theorem inDateRange_iff (s e : String) (r : ExpenseRecord) :
    inDateRange s e r = true ↔ (s ≤ r.date ∧ r.date ≤ e) := by
  simp [inDateRange]

/-- C5: the range query returns exactly the stored records whose date lies
lexicographically between the bounds, inclusive at both ends; its output is
sorted by date descending; and it is the empty sequence, not an error, when
no stored record matches. -/
theorem C5_range_query (start_date end_date : String) (db : DB) :
    (∀ r, r ∈ list_expenses_by_range start_date end_date db ↔
        r ∈ db.rows ∧ start_date ≤ r.date ∧ r.date ≤ end_date)
      ∧ List.Sorted dateDesc (list_expenses_by_range start_date end_date db)
      ∧ ((∀ r ∈ db.rows, ¬(start_date ≤ r.date ∧ r.date ≤ end_date)) →
          list_expenses_by_range start_date end_date db = []) := by
  refine ⟨?_, ?_, ?_⟩
  · intro r
    rw [list_expenses_by_range, List.mem_insertionSort, List.mem_filter,
      inDateRange_iff]
  · exact List.sorted_insertionSort dateDesc _
  · intro hnone
    rw [List.eq_nil_iff_forall_not_mem]
    intro r hr
    rw [list_expenses_by_range, List.mem_insertionSort, List.mem_filter,
      inDateRange_iff] at hr
    exact hnone r hr.1 hr.2

/-- C5 witness at concrete inputs. -/
theorem C5_range_query_witness :
    (∀ r, r ∈ list_expenses_by_range "2024-01-01" "2024-01-31" sampleDB ↔
        r ∈ sampleDB.rows ∧ "2024-01-01" ≤ r.date ∧ r.date ≤ "2024-01-31")
      ∧ List.Sorted dateDesc
          (list_expenses_by_range "2024-01-01" "2024-01-31" sampleDB)
      ∧ ((∀ r ∈ sampleDB.rows,
            ¬( "2024-01-01" ≤ r.date ∧ r.date ≤ "2024-01-31")) →
          list_expenses_by_range "2024-01-01" "2024-01-31" sampleDB = []) :=
  C5_range_query "2024-01-01" "2024-01-31" sampleDB

/-- C9: the ledger is append-only.  An insert leaves every previously stored
record in place with all its fields unchanged: the new row list is the old
one with one new row appended at the end, the id counter advances by one,
and each old record is still a member afterwards.  The four read operations
are embedded as functions of the store that return no modified store, which
is the frame the SELECT-only statements of the source give them. -/
theorem C9_append_only (e : ExpenseEntry) (db : DB) :
    (∃ t, ((add_expense e db).2).rows = db.rows ++ [t])
      ∧ ((add_expense e db).2).nextId = db.nextId + 1
      ∧ ∀ r ∈ db.rows, r ∈ ((add_expense e db).2).rows := by
  refine ⟨⟨_, rfl⟩, rfl, ?_⟩
  intro r hr
  exact List.mem_append_left _ hr

/-- C9 witness at concrete inputs. -/
theorem C9_append_only_witness :
    (∃ t, ((add_expense ⟨ "2024-02-01", 3, "food", "", ""⟩ sampleDB).2).rows
        = sampleDB.rows ++ [t])
      ∧ ((add_expense ⟨ "2024-02-01", 3, "food", "", ""⟩ sampleDB).2).nextId
          = sampleDB.nextId + 1
      ∧ ∀ r ∈ sampleDB.rows,
          r ∈ ((add_expense ⟨ "2024-02-01", 3, "food", "", ""⟩ sampleDB).2).rows :=
  C9_append_only ⟨ "2024-02-01", 3, "food", "", ""⟩ sampleDB

/-- C4: inserting a validated entry and then listing the one-day range made
of its own date yields a record whose five payload fields equal those of the
entry and whose id differs from the id of every record stored before the
insert. -/
theorem C4_insert_then_range (d : String) (a : Rat) (c : String)
    (sub rem : Option String) (e : ExpenseEntry) (db : DB)
    (hv : ExpenseEntry.validate d a c sub rem = some e)
    (hWF : ∀ r ∈ db.rows, r.id < db.nextId) :
    ∃ r ∈ list_expenses_by_range e.date e.date (add_expense e db).2,
      r.date = e.date ∧ r.amount = e.amount ∧ r.category = e.category ∧
      r.subcategory = e.subcategory ∧ r.remark = e.remark ∧
      ∀ old ∈ db.rows, old.id ≠ r.id := by
  refine ⟨⟨db.nextId, e.date, e.amount, e.category, e.subcategory, e.remark⟩,
    ?_, rfl, rfl, rfl, rfl, rfl, ?_⟩
  · simp [list_expenses_by_range, List.mem_filter, add_expense, inDateRange]
  · intro old hold
    exact Nat.ne_of_lt (hWF old hold)

/-- C4 witness at concrete inputs. -/
theorem C4_insert_then_range_witness :
    ∃ r ∈ list_expenses_by_range "2024-02-01" "2024-02-01"
        (add_expense ⟨ "2024-02-01", 3, "food", "", ""⟩ sampleDB).2,
      r.date = "2024-02-01" ∧ r.amount = 3 ∧ r.category = "food" ∧
      r.subcategory = "" ∧ r.remark = "" ∧
      ∀ old ∈ sampleDB.rows, old.id ≠ r.id :=
  C4_insert_then_range "2024-02-01" 3 "food" none none
    ⟨ "2024-02-01", 3, "food", "", ""⟩ sampleDB (by rfl) (by decide)

/-- Mapping the category field over the grouped representative rows gives
back the category list itself, provided every category in the list occurs
among the rows searched. -/
theorem map_category_filterMap_find (rows : List ExpenseRecord) :
    ∀ cs : List String, (∀ c ∈ cs, ∃ r ∈ rows, r.category = c) →
      ((cs.filterMap (fun c => rows.find? (fun r => r.category == c))).map
          (fun r => r.category)) = cs := by
  intro cs
  induction cs with
  | nil => intro _; rfl
  | cons c cs ih =>
      intro h
      obtain ⟨r, hr, hcat⟩ := h c (List.mem_cons_self c cs)
      have hsome : (rows.find? (fun r => r.category == c)).isSome := by
        rw [List.find?_isSome]
        exact ⟨r, hr, by simp [hcat]⟩
      obtain ⟨r0, hr0⟩ := Option.isSome_iff_exists.mp hsome
      have hcat0 : r0.category = c := by
        have hp := List.find?_some hr0
        simpa using hp
      rw [List.filterMap_cons, hr0]
      simp only [List.map_cons, hcat0]
      rw [ih (fun x hx => h x (List.mem_cons_of_mem c hx))]

/-- C8: with no category supplied, summarize succeeds and returns one row
per distinct category occurring among the stored rows inside the inclusive
date range: the categories of the returned rows are pairwise distinct, are
exactly the categories present in range, and appear in ascending order. -/
theorem C8_summarize_groups (startdate enddate : String) (db : DB) :
    ∃ l, summarize startdate enddate none db = QueryResult.ok l
      ∧ (l.map (fun r => r.category)).Nodup
      ∧ (∀ c, c ∈ l.map (fun r => r.category) ↔
            ∃ r ∈ db.rows, (startdate ≤ r.date ∧ r.date ≤ enddate)
              ∧ r.category = c)
      ∧ List.Sorted (fun a b => a ≤ b)
          (l.map (fun r => r.category)) := by
  refine ⟨groupByCategory (db.rows.filter (inDateRange startdate enddate)),
    rfl, ?_⟩
  have hmapcat : (groupByCategory
        (db.rows.filter (inDateRange startdate enddate))).map
          (fun r => r.category)
      = List.insertionSort (fun a b => a ≤ b)
          (((db.rows.filter (inDateRange startdate enddate)).map
              (fun r => r.category)).dedup) := by
    apply map_category_filterMap_find
    intro c hc
    rw [List.mem_insertionSort, List.mem_dedup, List.mem_map] at hc
    obtain ⟨r, hr, hcat⟩ := hc
    exact ⟨r, hr, hcat⟩
  refine ⟨?_, ?_, ?_⟩
  · rw [hmapcat]
    exact ((List.perm_insertionSort _ _).nodup_iff).mpr (List.nodup_dedup _)
  · intro c
    rw [hmapcat, List.mem_insertionSort, List.mem_dedup, List.mem_map]
    constructor
    · rintro ⟨r, hr, hcat⟩
      rw [List.mem_filter, inDateRange_iff] at hr
      exact ⟨r, hr.1, hr.2, hcat⟩
    · rintro ⟨r, hr, hrange, hcat⟩
      refine ⟨r, ?_, hcat⟩
      rw [List.mem_filter]
      exact ⟨hr, (inDateRange_iff startdate enddate r).mpr hrange⟩
  · rw [hmapcat]
    exact List.sorted_insertionSort _ _

/-- C8 witness at concrete inputs. -/
theorem C8_summarize_groups_witness :
    ∃ l, summarize "2024-01-01" "2024-01-31" none sampleDB
        = QueryResult.ok l
      ∧ (l.map (fun r => r.category)).Nodup
      ∧ (∀ c, c ∈ l.map (fun r => r.category) ↔
            ∃ r ∈ sampleDB.rows,
              ( "2024-01-01" ≤ r.date ∧ r.date ≤ "2024-01-31")
              ∧ r.category = c)
      ∧ List.Sorted (fun a b => a ≤ b)
          (l.map (fun r => r.category)) :=
  C8_summarize_groups "2024-01-01" "2024-01-31" sampleDB
